import Mathlib

/-!
Verification development for the gorillabot repository (a Discord bot that
subscribes channels to live game-server status updates).

The embedding follows the Rust source:
* `src/types.rs` — the `Subscription` record;
* `src/db.rs` — the SQLite-backed subscription store, modelled as a list of
  rows together with the next auto-assigned row id, with each SQL statement
  rendered as the corresponding row-by-row operation;
* `src/main.rs` — the status-embed builder `get_server_status_setter`, the
  error classifier `is_message_was_removed_error`, the per-subscription
  update `handle_subscription`, and the one-shot loop guard in `cache_ready`.

External effects (the A2S query, the player query, the Discord message edit)
are passed in as explicit outcome values, exactly at the points where the
Rust code awaits them.
-/

namespace Gorillabot

/-- `a2s::info::Info`, restricted to the fields the bot reads:
server name, current map, and reported player count. -/
structure Info where
  name : String
  map : String
  players : Nat
deriving DecidableEq, Repr

/-- `a2s::players::Player`, restricted to the `name` field the bot reads. -/
structure Player where
  name : String
deriving DecidableEq, Repr

/-- The JSON error payload inside a Discord HTTP error response
(`res.error.message` in the Rust code). -/
structure DiscordJsonError where
  message : String
deriving DecidableEq, Repr

/-- `serenity::http::error::ErrorResponse`, restricted to the error payload. -/
structure ErrorResponse where
  error : DiscordJsonError
deriving DecidableEq, Repr

/-- The shapes of `serenity::http::HttpError` the classifier distinguishes:
an unsuccessful HTTP request carrying an `ErrorResponse`, or anything else. -/
inductive HttpError where
  | unsuccessfulRequest (res : ErrorResponse)
  | otherHttp
deriving DecidableEq, Repr

/-- The shapes of `SerenityError` the classifier distinguishes:
an HTTP-layer error, or any non-HTTP error. -/
inductive SerenityError where
  | http (e : HttpError)
  | otherError
deriving DecidableEq, Repr

/-- `types.rs`: one persisted subscription, with an optional row id that is
present only after the row has been read back from the store. -/
structure Subscription where
  id : Option Int
  guild_id : Nat
  channel_id : Nat
  message_id : Nat
  server_hostname : String
deriving DecidableEq, Repr

/-- One row of the `subscriptions` table
(`id PRIMARY KEY, guild_id, channel_id, message_id, server_hostname`). -/
structure Row where
  id : Int
  guild_id : Nat
  channel_id : Nat
  message_id : Nat
  server_hostname : String
deriving DecidableEq, Repr

/-- `db.rs`: the store behind `BotDb` — the table contents plus the next
auto-assigned primary-key value. -/
structure BotDb where
  rows : List Row
  nextId : Int
deriving DecidableEq, Repr

/-- Whether a row matches the `(channel_id, server_hostname)` conflict target
of the upsert statement. -/
def rowMatches (c : Nat) (h : String) (r : Row) : Bool :=
  r.channel_id = c && r.server_hostname = h

/-- `BotDb::upsert_subscription` (`db.rs`):
`INSERT INTO subscriptions (guild_id, channel_id, message_id, server_hostname)
VALUES (?, ?, ?, ?) ON CONFLICT (channel_id, server_hostname) DO UPDATE SET
server_hostname = ?, message_id = ?`.
On conflict the existing row keeps its id and guild id and receives the new
hostname and message id; otherwise a fresh row is inserted with the next id. -/
def upsert_subscription (db : BotDb) (sub : Subscription) : BotDb :=
  if db.rows.any (rowMatches sub.channel_id sub.server_hostname) then
    { db with
      rows := db.rows.map fun r =>
        if rowMatches sub.channel_id sub.server_hostname r then
          { r with server_hostname := sub.server_hostname, message_id := sub.message_id }
        else r }
  else
    let newRow : Row :=
      { id := db.nextId, guild_id := sub.guild_id, channel_id := sub.channel_id,
        message_id := sub.message_id, server_hostname := sub.server_hostname }
    { rows := db.rows ++ [newRow], nextId := db.nextId + 1 }

/-- Row-by-row execution of `DELETE FROM subscriptions WHERE channel_id = ?`:
returns the surviving rows and the number of rows removed. -/
def deleteByChannelRows (c : Nat) : List Row → List Row × Nat
  | [] => ([], 0)
  | r :: rest =>
      let (kept, n) := deleteByChannelRows c rest
      if r.channel_id = c then (kept, n + 1) else (r :: kept, n)

/-- `BotDb::delete_subscriptions_by_channel_id` (`db.rs`): deletes every row
of the channel and returns the count of changed rows. -/
def delete_subscriptions_by_channel_id (db : BotDb) (c : Nat) : BotDb × Nat :=
  let (kept, n) := deleteByChannelRows c db.rows
  ({ db with rows := kept }, n)

/-- Row-by-row execution of `DELETE FROM subscriptions WHERE id = ?`:
returns the surviving rows and the number of rows removed. -/
def deleteByIdRows (i : Int) : List Row → List Row × Nat
  | [] => ([], 0)
  | r :: rest =>
      let (kept, n) := deleteByIdRows i rest
      if r.id = i then (kept, n + 1) else (r :: kept, n)

/-- `BotDb::delete_subscription_by_id` (`db.rs`): deletes the row with the
given id and returns the count of changed rows. -/
def delete_subscription_by_id (db : BotDb) (i : Int) : BotDb × Nat :=
  let (kept, n) := deleteByIdRows i db.rows
  ({ db with rows := kept }, n)

/-- `BotDb::get_subscriptions` (`db.rs`): reads every row back as a
`Subscription`, with `id = Some(row id)`. -/
def get_subscriptions (db : BotDb) : List Subscription :=
  db.rows.map fun r =>
    { id := some r.id, guild_id := r.guild_id, channel_id := r.channel_id,
      message_id := r.message_id, server_hostname := r.server_hostname }

/-- `is_message_was_removed_error` (`main.rs`): true exactly for an HTTP
unsuccessful-request error whose payload message is `"Unknown Message"`. -/
def is_message_was_removed_error (err : SerenityError) : Bool :=
  match err with
  | SerenityError.http http_error =>
      match http_error with
      | HttpError.unsuccessfulRequest res => res.error.message = "Unknown Message"
      | _ => false
  | _ => false

/-- `get_server_status_setter` (`main.rs`), with the embed rendered as its
list of `(field name, field value)` pairs and the formatted `Local::now()`
timestamp passed in as `updated_at`. -/
def get_server_status_setter (info : Option (Info × List Player))
    (address : String) (updated_at : String) : List (String × String) :=
  match info with
  | some (info, players) =>
      [("Server name", info.name), ("Server address", address),
       ("Map", info.map), ("Player count", toString info.players)]
      ++ (if players.isEmpty then []
          else [("Players", String.intercalate ", " (players.map Player.name))])
      ++ [("Updated at", updated_at)]
  | none =>
      [("Server name", "Unknown"), ("Server address", address),
       ("Map", "Unknown"), ("Player count", "Unknown"),
       ("Updated at", updated_at)]

/-- The outcomes of the external calls a single `handle_subscription` run
awaits: the A2S info query, the A2S player query, and the message edit
(`none` models a failed query; `Except.error` a failed edit). -/
structure ExternalOutcomes where
  infoRes : Option Info
  playersRes : Option (List Player)
  editRes : Except SerenityError Unit
  now : String

/-- The `match info { ... }` block of `handle_subscription` (`main.rs`):
on query success with players > 0 the player list is queried, a failed
player query degrading to an empty list; on query failure the result is
`None`. -/
def buildInfo (infoRes : Option Info) (playersRes : Option (List Player)) :
    Option (Info × List Player) :=
  match infoRes with
  | some info =>
      if info.players > 0 then
        match playersRes with
        | none => some (info, [])
        | some players => some (info, players)
      else some (info, [])
  | none => none

/-- A store mutation performed during a cycle (only deletion by row id
occurs inside `handle_subscription`). -/
inductive StoreOp where
  | deleteById (i : Int)
deriving DecidableEq, Repr

/-- `handle_subscription` (`main.rs`): queries the server, builds the status
embed, edits the message, and on a message-removed edit failure deletes the
subscription row by id. Returns the updated store and the store operations
performed, or `none` when the code panics (the `expect` on a missing id). -/
def handle_subscription (db : BotDb) (sub : Subscription)
    (ext : ExternalOutcomes) : Option (BotDb × List StoreOp) :=
  let info := buildInfo ext.infoRes ext.playersRes
  let _fields := get_server_status_setter info sub.server_hostname ext.now
  match ext.editRes with
  | Except.ok _ => some (db, [])
  | Except.error err =>
      if is_message_was_removed_error err then
        match sub.id with
        | some i => some ((delete_subscription_by_id db i).1, [StoreOp.deleteById i])
        | none => none
      else some (db, [])

/-- The per-cycle loop body of `cache_ready` (`main.rs`): processes the
enumerated subscriptions in order, threading the store through; `none`
models an aborted batch (a panic in `handle_subscription`). -/
def process_subscriptions (db : BotDb) (subs : List Subscription)
    (ext : Subscription → ExternalOutcomes) : Option BotDb :=
  match subs with
  | [] => some db
  | s :: rest =>
      match handle_subscription db s (ext s) with
      | none => none
      | some (db2, _) => process_subscriptions db2 rest ext

/-- `Handler::cache_ready` (`main.rs`) as a transition on the
`is_loop_running` flag: the flag is loaded and, when it is false, a loop
task is spawned; the flag is never stored to. Returns the new flag value
and whether a loop task was spawned by this invocation. -/
def cache_ready (is_loop_running : Bool) : Bool × Bool :=
  if !is_loop_running then (is_loop_running, true) else (is_loop_running, false)

/-- Total number of loop tasks spawned across `n` consecutive
`cache_ready` invocations starting from flag state `s`. -/
def spawnsAfter (s : Bool) : Nat → Nat
  | 0 => 0
  | n + 1 =>
      let (s2, sp) := cache_ready s
      (if sp then 1 else 0) + spawnsAfter s2 n

/-- The `subscriptions` table with its `id PRIMARY KEY` and
`UNIQUE(channel_id, server_hostname)` constraints, plus the freshness of
the next auto-assigned id. -/
def WF (db : BotDb) : Prop :=
  db.rows.Pairwise (fun a b =>
    a.id ≠ b.id ∧ (a.channel_id ≠ b.channel_id ∨ a.server_hostname ≠ b.server_hostname))
  ∧ ∀ r ∈ db.rows, r.id < db.nextId

instance : DecidablePred WF := fun db => by
  unfold WF
  infer_instance

/-- Every subscription read back by `get_subscriptions` has a present id. -/
theorem get_subscriptions_id_isSome (db : BotDb) (sub : Subscription)
    (h : sub ∈ get_subscriptions db) : sub.id.isSome = true := by
  simp only [get_subscriptions, List.mem_map] at h
  obtain ⟨r, _, rfl⟩ := h
  rfl

/-- `handle_subscription` never panics for a subscription with a present id. -/
theorem handle_subscription_isSome (db : BotDb) (sub : Subscription)
    (ext : ExternalOutcomes) (h : sub.id.isSome = true) :
    (handle_subscription db sub ext).isSome = true := by
  unfold handle_subscription
  cases hE : ext.editRes with
  | ok _ => rfl
  | error err =>
      by_cases hc : is_message_was_removed_error err = true
      · cases hid : sub.id with
        | none => rw [hid] at h; simp at h
        | some i => simp [hc, hid]
      · simp [hc]

/-- `deleteByChannelRows` keeps exactly the rows of other channels, in order,
and counts the deleted ones. -/
theorem deleteByChannelRows_eq (c : Nat) (l : List Row) :
    deleteByChannelRows c l =
      (l.filter (fun r => r.channel_id ≠ c),
       (l.filter (fun r => r.channel_id = c)).length) := by
  induction l with
  | nil => rfl
  | cons r rest ih =>
      by_cases h : r.channel_id = c <;>
        simp [deleteByChannelRows, ih, List.filter_cons, h]

/-- `deleteByIdRows` keeps exactly the rows with a different id, in order,
and counts the deleted ones. -/
theorem deleteByIdRows_eq (i : Int) (l : List Row) :
    deleteByIdRows i l =
      (l.filter (fun r => r.id ≠ i), (l.filter (fun r => r.id = i)).length) := by
  induction l with
  | nil => rfl
  | cons r rest ih =>
      by_cases h : r.id = i <;>
        simp [deleteByIdRows, ih, List.filter_cons, h]

/-- Under distinct row ids, at most one row has any given id. -/
theorem length_filter_id_le_one {l : List Row} {i : Int}
    (hp : l.Pairwise fun a b => a.id ≠ b.id) :
    (l.filter (fun r => r.id = i)).length ≤ 1 := by
  induction l with
  | nil => simp
  | cons r rest ih =>
      rw [List.pairwise_cons] at hp
      by_cases h : r.id = i
      · have hnone : rest.filter (fun r => r.id = i) = [] := by
          rw [List.filter_eq_nil_iff]
          intro a ha
          simp only [decide_eq_true_eq]
          intro hai
          exact hp.1 a ha (by rw [h, hai])
        simp [List.filter_cons, h, hnone]
      · simpa [List.filter_cons, h] using ih hp.2

/-- C2: when the message edit fails with a message-removed error and the
subscription has its id, `handle_subscription` deletes exactly that row
(one `deleteById` operation) and performs nothing further; on any other
edit failure it performs no store operation and leaves the store unchanged. -/
theorem C2_edit_failure_handling (db : BotDb) (sub : Subscription) (i : Int)
    (infoRes : Option Info) (playersRes : Option (List Player))
    (e : SerenityError) (now : String) (hid : sub.id = some i) :
    (is_message_was_removed_error e = true →
      handle_subscription db sub ⟨infoRes, playersRes, Except.error e, now⟩ =
        some ((delete_subscription_by_id db i).1, [StoreOp.deleteById i])) ∧
    (is_message_was_removed_error e = false →
      handle_subscription db sub ⟨infoRes, playersRes, Except.error e, now⟩ =
        some (db, [])) := by
  constructor <;> intro hc <;> simp [handle_subscription, hc, hid]

/-- Witness for C2 at a concrete store, subscription and error pair. -/
theorem C2_edit_failure_handling_witness :
    (Subscription.mk (some 1) 2 3 4 "gorilla.example:27015").id = some 1 ∧
    ((is_message_was_removed_error
        (SerenityError.http (HttpError.unsuccessfulRequest ⟨⟨"Unknown Message"⟩⟩)) = true →
      handle_subscription (BotDb.mk [Row.mk 1 2 3 4 "gorilla.example:27015"] 2)
        (Subscription.mk (some 1) 2 3 4 "gorilla.example:27015")
        ⟨none, none,
         Except.error (SerenityError.http (HttpError.unsuccessfulRequest ⟨⟨"Unknown Message"⟩⟩)),
         "2026-10-12 00:00:00"⟩ =
        some ((delete_subscription_by_id
                (BotDb.mk [Row.mk 1 2 3 4 "gorilla.example:27015"] 2) 1).1,
              [StoreOp.deleteById 1])) ∧
     (is_message_was_removed_error
        (SerenityError.http (HttpError.unsuccessfulRequest ⟨⟨"Unknown Message"⟩⟩)) = false →
      handle_subscription (BotDb.mk [Row.mk 1 2 3 4 "gorilla.example:27015"] 2)
        (Subscription.mk (some 1) 2 3 4 "gorilla.example:27015")
        ⟨none, none,
         Except.error (SerenityError.http (HttpError.unsuccessfulRequest ⟨⟨"Unknown Message"⟩⟩)),
         "2026-10-12 00:00:00"⟩ =
        some (BotDb.mk [Row.mk 1 2 3 4 "gorilla.example:27015"] 2, []))) :=
  ⟨rfl, C2_edit_failure_handling _ _ 1 none none _ "2026-10-12 00:00:00" rfl⟩

/-- A batch over subscriptions all carrying an id never aborts. -/
theorem process_subscriptions_isSome (db : BotDb) (subs : List Subscription)
    (ext : Subscription → ExternalOutcomes)
    (h : ∀ s ∈ subs, s.id.isSome = true) :
    (process_subscriptions db subs ext).isSome = true := by
  induction subs generalizing db with
  | nil => rfl
  | cons s rest ih =>
      have hs := h s (List.mem_cons_self s rest)
      have hsome := handle_subscription_isSome db s (ext s) hs
      unfold process_subscriptions
      cases hh : handle_subscription db s (ext s) with
      | none => rw [hh] at hsome; simp at hsome
      | some p =>
          simp only [hh]
          exact ih p.1 fun t ht => h t (List.mem_cons_of_mem s ht)

/-- C3: a polling cycle over the store's enumeration never aborts: each
`handle_subscription` run returns success whatever the outcomes of the info
query, the player query and the message edit, so every remaining
subscription of the batch is still processed. -/
theorem C3_cycle_never_aborts (db : BotDb) (ext : Subscription → ExternalOutcomes) :
    (process_subscriptions db (get_subscriptions db) ext).isSome = true :=
  process_subscriptions_isSome db (get_subscriptions db) ext
    fun s hs => get_subscriptions_id_isSome db s hs

/-- C8: deleting by channel returns exactly the number of that channel's
rows and leaves the rows of every other channel unchanged, in order. -/
theorem C8_delete_by_channel (db : BotDb) (c : Nat) :
    (delete_subscriptions_by_channel_id db c).2 =
      (db.rows.filter (fun r => r.channel_id = c)).length ∧
    (delete_subscriptions_by_channel_id db c).1.rows =
      db.rows.filter (fun r => r.channel_id ≠ c) ∧
    ∀ r ∈ (delete_subscriptions_by_channel_id db c).1.rows, r.channel_id ≠ c := by
  refine ⟨?_, ?_, ?_⟩ <;>
    simp only [delete_subscriptions_by_channel_id, deleteByChannelRows_eq]
  intro r hr
  simp only [List.mem_filter, decide_eq_true_eq] at hr
  exact hr.2

/-- C9: deleting by id returns the number of rows removed, removes at most
one row on a well-formed store, and is a no-op returning 0 when no row has
the id. -/
theorem C9_delete_by_id (db : BotDb) (i : Int) (hwf : WF db) :
    (delete_subscription_by_id db i).2 =
      (db.rows.filter (fun r => r.id = i)).length ∧
    (delete_subscription_by_id db i).2 ≤ 1 ∧
    (delete_subscription_by_id db i).1.rows =
      db.rows.filter (fun r => r.id ≠ i) ∧
    ((∀ r ∈ db.rows, r.id ≠ i) →
      (delete_subscription_by_id db i).2 = 0 ∧
      (delete_subscription_by_id db i).1 = db) := by
  have hids : db.rows.Pairwise fun a b => a.id ≠ b.id :=
    hwf.1.imp fun hab => hab.1
  refine ⟨?_, ?_, ?_, ?_⟩
  · simp only [delete_subscription_by_id, deleteByIdRows_eq]
  · simp only [delete_subscription_by_id, deleteByIdRows_eq]
    exact length_filter_id_le_one hids
  · simp only [delete_subscription_by_id, deleteByIdRows_eq]
  · intro hnone
    have hz : db.rows.filter (fun r => r.id = i) = [] := by
      rw [List.filter_eq_nil_iff]
      intro a ha
      simpa using hnone a ha
    have hall : db.rows.filter (fun r => r.id ≠ i) = db.rows := by
      rw [List.filter_eq_self]
      intro a ha
      simpa using hnone a ha
    constructor
    · simp only [delete_subscription_by_id, deleteByIdRows_eq, hz, List.length_nil]
    · simp only [delete_subscription_by_id, deleteByIdRows_eq, hall]

/-- Witness for C9 at a concrete well-formed store and an absent id. -/
theorem C9_delete_by_id_witness :
    WF (BotDb.mk [Row.mk 1 2 3 4 "gorilla.example:27015"] 2) ∧
    ((delete_subscription_by_id (BotDb.mk [Row.mk 1 2 3 4 "gorilla.example:27015"] 2) 5).2 =
      ((BotDb.mk [Row.mk 1 2 3 4 "gorilla.example:27015"] 2).rows.filter
        (fun r => r.id = 5)).length ∧
     (delete_subscription_by_id (BotDb.mk [Row.mk 1 2 3 4 "gorilla.example:27015"] 2) 5).2 ≤ 1 ∧
     (delete_subscription_by_id (BotDb.mk [Row.mk 1 2 3 4 "gorilla.example:27015"] 2) 5).1.rows =
      (BotDb.mk [Row.mk 1 2 3 4 "gorilla.example:27015"] 2).rows.filter (fun r => r.id ≠ 5) ∧
     ((∀ r ∈ (BotDb.mk [Row.mk 1 2 3 4 "gorilla.example:27015"] 2).rows, r.id ≠ 5) →
      (delete_subscription_by_id (BotDb.mk [Row.mk 1 2 3 4 "gorilla.example:27015"] 2) 5).2 = 0 ∧
      (delete_subscription_by_id (BotDb.mk [Row.mk 1 2 3 4 "gorilla.example:27015"] 2) 5).1 =
        BotDb.mk [Row.mk 1 2 3 4 "gorilla.example:27015"] 2)) :=
  ⟨by decide, C9_delete_by_id (BotDb.mk [Row.mk 1 2 3 4 "gorilla.example:27015"] 2) 5 (by decide)⟩

/-- Updating the conflicting rows of a key preserves how many rows match
that key: a matching row stays matching, a non-matching row is unchanged. -/
theorem countP_update_rows (c : Nat) (h : String) (m : Nat) (l : List Row) :
    (l.map fun r =>
        if rowMatches c h r then { r with server_hostname := h, message_id := m }
        else r).countP (rowMatches c h) =
      l.countP (rowMatches c h) := by
  induction l with
  | nil => rfl
  | cons r rest ih =>
      by_cases hr : rowMatches c h r = true
      · have hu : rowMatches c h { r with server_hostname := h, message_id := m } = true := by
          simp only [rowMatches, Bool.and_eq_true, decide_eq_true_eq] at hr ⊢
          exact ⟨hr.1, trivial⟩
        simp [List.countP_cons, hr, hu, ih]
      · simp [List.countP_cons, hr, ih]

/-- After the conflict-update pass, every row matching the key carries the
new message id and hostname. -/
theorem update_rows_values (c : Nat) (h : String) (m : Nat) (l : List Row) (r : Row)
    (hr : r ∈ l.map fun x =>
        if rowMatches c h x then { x with server_hostname := h, message_id := m }
        else x)
    (hm : rowMatches c h r = true) :
    r.message_id = m ∧ r.server_hostname = h := by
  rw [List.mem_map] at hr
  obtain ⟨x, _, rfl⟩ := hr
  by_cases hxm : rowMatches c h x = true
  · rw [if_pos hxm]
    exact ⟨rfl, rfl⟩
  · rw [if_neg hxm] at hm ⊢
    exact absurd hm hxm

/-- Count of key-matching rows after an upsert: unchanged when the key was
present (the conflict update), one more when it was absent (the insert). -/
theorem countP_upsert (db : BotDb) (sub : Subscription) :
    (upsert_subscription db sub).rows.countP
        (rowMatches sub.channel_id sub.server_hostname) =
      if db.rows.any (rowMatches sub.channel_id sub.server_hostname) then
        db.rows.countP (rowMatches sub.channel_id sub.server_hostname)
      else
        db.rows.countP (rowMatches sub.channel_id sub.server_hostname) + 1 := by
  unfold upsert_subscription
  by_cases ha : db.rows.any (rowMatches sub.channel_id sub.server_hostname) = true
  · rw [if_pos ha, if_pos ha]
    exact countP_update_rows _ _ _ _
  · rw [if_neg ha, if_neg ha]
    simp [List.countP_append, List.countP_cons, rowMatches]

/-- Under the `(channel_id, server_hostname)` uniqueness constraint, at most
one row matches any key. -/
theorem countP_key_le_one {l : List Row} {c : Nat} {h : String}
    (hp : l.Pairwise fun a b =>
      a.channel_id ≠ b.channel_id ∨ a.server_hostname ≠ b.server_hostname) :
    l.countP (rowMatches c h) ≤ 1 := by
  induction l with
  | nil => simp
  | cons r rest ih =>
      rw [List.pairwise_cons] at hp
      by_cases hr : rowMatches c h r = true
      · have hz : rest.countP (rowMatches c h) = 0 := by
          rw [List.countP_eq_zero]
          intro a ha hma
          simp only [rowMatches, Bool.and_eq_true, decide_eq_true_eq] at hr hma
          rcases hp.1 a ha with hc | hh
          · exact hc (hr.1.trans hma.1.symm)
          · exact hh (hr.2.trans hma.2.symm)
        simp [List.countP_cons, hr, hz]
      · simpa [List.countP_cons, hr] using ih hp.2

/-- On a well-formed store, an upsert leaves exactly one row with its key. -/
theorem countP_upsert_eq_one (db : BotDb) (sub : Subscription) (hwf : WF db) :
    (upsert_subscription db sub).rows.countP
        (rowMatches sub.channel_id sub.server_hostname) = 1 := by
  have hkeys : db.rows.Pairwise fun a b =>
      a.channel_id ≠ b.channel_id ∨ a.server_hostname ≠ b.server_hostname :=
    hwf.1.imp fun hab => hab.2
  have hle := countP_key_le_one (l := db.rows)
    (c := sub.channel_id) (h := sub.server_hostname) hkeys
  rw [countP_upsert]
  by_cases ha : db.rows.any (rowMatches sub.channel_id sub.server_hostname) = true
  · rw [if_pos ha]
    rw [List.any_eq_true] at ha
    obtain ⟨a, haMem, haP⟩ := ha
    have hpos : 0 < db.rows.countP (rowMatches sub.channel_id sub.server_hostname) :=
      List.countP_pos_iff.mpr ⟨a, haMem, haP⟩
    omega
  · rw [if_neg ha]
    have hz : db.rows.countP (rowMatches sub.channel_id sub.server_hostname) = 0 := by
      by_contra hnz
      have hpos : 0 < db.rows.countP (rowMatches sub.channel_id sub.server_hostname) :=
        Nat.pos_of_ne_zero hnz
      obtain ⟨a, haMem, haP⟩ := List.countP_pos_iff.mp hpos
      exact ha (List.any_eq_true.mpr ⟨a, haMem, haP⟩)
    omega

/-- C4: upserting twice with the same `(channel_id, server_hostname)` key on
a well-formed store leaves exactly one row with that key, and that row
carries the second call's message id and hostname. -/
theorem C4_upsert_twice (db : BotDb) (s1 s2 : Subscription) (hwf : WF db)
    (hc : s1.channel_id = s2.channel_id)
    (hh : s1.server_hostname = s2.server_hostname) :
    (upsert_subscription (upsert_subscription db s1) s2).rows.countP
        (rowMatches s2.channel_id s2.server_hostname) = 1 ∧
    ∀ r ∈ (upsert_subscription (upsert_subscription db s1) s2).rows,
      rowMatches s2.channel_id s2.server_hostname r = true →
        r.message_id = s2.message_id ∧ r.server_hostname = s2.server_hostname := by
  have h1 : (upsert_subscription db s1).rows.countP
      (rowMatches s2.channel_id s2.server_hostname) = 1 := by
    rw [← hc, ← hh]
    exact countP_upsert_eq_one db s1 hwf
  have hany : (upsert_subscription db s1).rows.any
      (rowMatches s2.channel_id s2.server_hostname) = true := by
    rw [List.any_eq_true]
    exact List.countP_pos_iff.mp (by omega)
  constructor
  · rw [countP_upsert, if_pos hany, h1]
  · intro r hr hm
    rw [upsert_subscription, if_pos hany] at hr
    exact update_rows_values _ _ _ _ r hr hm

/-- Witness for C4: two upserts of the same key on the empty store. -/
theorem C4_upsert_twice_witness :
    WF (BotDb.mk [] 1) ∧
    (Subscription.mk none 2 3 4 "gorilla.example:27015").channel_id =
      (Subscription.mk none 2 3 7 "gorilla.example:27015").channel_id ∧
    (Subscription.mk none 2 3 4 "gorilla.example:27015").server_hostname =
      (Subscription.mk none 2 3 7 "gorilla.example:27015").server_hostname ∧
    ((upsert_subscription (upsert_subscription (BotDb.mk [] 1)
          (Subscription.mk none 2 3 4 "gorilla.example:27015"))
        (Subscription.mk none 2 3 7 "gorilla.example:27015")).rows.countP
        (rowMatches (Subscription.mk none 2 3 7 "gorilla.example:27015").channel_id
          (Subscription.mk none 2 3 7 "gorilla.example:27015").server_hostname) = 1 ∧
     ∀ r ∈ (upsert_subscription (upsert_subscription (BotDb.mk [] 1)
          (Subscription.mk none 2 3 4 "gorilla.example:27015"))
        (Subscription.mk none 2 3 7 "gorilla.example:27015")).rows,
      rowMatches (Subscription.mk none 2 3 7 "gorilla.example:27015").channel_id
          (Subscription.mk none 2 3 7 "gorilla.example:27015").server_hostname r = true →
        r.message_id = (Subscription.mk none 2 3 7 "gorilla.example:27015").message_id ∧
        r.server_hostname =
          (Subscription.mk none 2 3 7 "gorilla.example:27015").server_hostname) :=
  ⟨by decide, rfl, rfl,
   C4_upsert_twice (BotDb.mk [] 1)
     (Subscription.mk none 2 3 4 "gorilla.example:27015")
     (Subscription.mk none 2 3 7 "gorilla.example:27015")
     (by decide) rfl rfl⟩

/-- C6 fails as stated: with reported player count 1 and a player-list query
that succeeds with an empty list, the built payload contains no
player-name field at all. -/
theorem C6_counterexample :
    0 < (Info.mk "gorilla" "forest" 1).players ∧
    buildInfo (some (Info.mk "gorilla" "forest" 1)) (some []) =
      some (Info.mk "gorilla" "forest" 1, []) ∧
    ((get_server_status_setter
        (buildInfo (some (Info.mk "gorilla" "forest" 1)) (some []))
        "gorilla.example:27015" "2026-10-12 00:00:00").all
      fun f => f.1 ≠ "Players") = true := by decide

/-- C6 amended: with player count 0 the payload omits the player-name field;
with player count > 0 and a player-list query succeeding with a nonempty
list, the payload includes the names joined with `", "`. -/
theorem C6_player_fields (info : Info) (playersRes : Option (List Player))
    (address updated_at : String) :
    (info.players = 0 →
      ((get_server_status_setter (buildInfo (some info) playersRes)
          address updated_at).all fun f => f.1 ≠ "Players") = true) ∧
    (∀ ps : List Player, playersRes = some ps → ps ≠ [] → 0 < info.players →
      ("Players", String.intercalate ", " (ps.map Player.name)) ∈
        get_server_status_setter (buildInfo (some info) playersRes)
          address updated_at) := by
  constructor
  · intro h0
    simp [buildInfo, h0, get_server_status_setter]
  · rintro ps rfl hne hpos
    obtain ⟨q, qs, rfl⟩ := List.exists_cons_of_ne_nil hne
    simp only [buildInfo, gt_iff_lt, if_pos hpos]
    simp [get_server_status_setter]

/-- Witness for C6 at concrete payloads: count 0 omits the field, count 2
with one player includes it. -/
theorem C6_player_fields_witness :
    ((Info.mk "gorilla" "forest" 0).players = 0 ∧
     ((get_server_status_setter
         (buildInfo (some (Info.mk "gorilla" "forest" 0))
           (some [Player.mk "ape"])) "addr" "ts").all
       fun f => f.1 ≠ "Players") = true) ∧
    ([Player.mk "ape"] ≠ ([] : List Player) ∧
     0 < (Info.mk "gorilla" "forest" 2).players ∧
     ("Players", String.intercalate ", " ([Player.mk "ape"].map Player.name)) ∈
       get_server_status_setter
         (buildInfo (some (Info.mk "gorilla" "forest" 2))
           (some [Player.mk "ape"])) "addr" "ts") :=
  ⟨⟨rfl, (C6_player_fields (Info.mk "gorilla" "forest" 0)
      (some [Player.mk "ape"]) "addr" "ts").1 rfl⟩,
   ⟨by decide, by decide,
    (C6_player_fields (Info.mk "gorilla" "forest" 2)
      (some [Player.mk "ape"]) "addr" "ts").2 [Player.mk "ape"] rfl
      (by decide) (by decide)⟩⟩

/-- C1: the spec requires the polling loop to be started at most once across
repeated `cache_ready` firings, but `is_loop_running` is never stored to:
starting from the initial `false` state, each of two consecutive firings
spawns a loop task, so two loops are running after the second firing. -/
theorem C1_second_firing_spawns_second_loop :
    (cache_ready false).1 = false ∧ (cache_ready false).2 = true ∧
    spawnsAfter false 2 = 2 := by decide

/-- C5: an edit failure is classified as message-removed exactly when it is
an HTTP unsuccessful-request error whose payload message is
`"Unknown Message"`; every other error shape is classified `false`. -/
theorem C5_message_removed_classification (err : SerenityError) :
    is_message_was_removed_error err = true ↔
      ∃ res : ErrorResponse,
        err = SerenityError.http (HttpError.unsuccessfulRequest res) ∧
        res.error.message = "Unknown Message" := by
  cases err with
  | http e =>
      cases e with
      | unsuccessfulRequest res => simp [is_message_was_removed_error]
      | otherHttp => simp [is_message_was_removed_error]
  | otherError => simp [is_message_was_removed_error]

/-- C7: when the A2S query fails, the built status payload sets the server
name, map and player count fields to `"Unknown"` and still carries the
original address and the build-time timestamp. -/
theorem C7_query_failure_unknown_fields (address updated_at : String)
    (playersRes : Option (List Player)) :
    get_server_status_setter (buildInfo none playersRes) address updated_at =
      [("Server name", "Unknown"), ("Server address", address),
       ("Map", "Unknown"), ("Player count", "Unknown"),
       ("Updated at", updated_at)] := rfl

/-- C10: every subscription enumerated from the store has a present id, so
the delete-by-id path of `handle_subscription` never fails its
present-id assertion for a store-obtained subscription. -/
theorem C10_enumerated_ids_present (db : BotDb) (sub : Subscription)
    (h : sub ∈ get_subscriptions db) : sub.id.isSome = true :=
  get_subscriptions_id_isSome db sub h

/-- Witness for C10 at a concrete one-row store. -/
theorem C10_enumerated_ids_present_witness :
    Subscription.mk (some 1) 2 3 4 "gorilla.example:27015" ∈
      get_subscriptions (BotDb.mk [Row.mk 1 2 3 4 "gorilla.example:27015"] 2) ∧
    (Subscription.mk (some 1) 2 3 4 "gorilla.example:27015").id.isSome = true :=
  ⟨by decide,
   C10_enumerated_ids_present (BotDb.mk [Row.mk 1 2 3 4 "gorilla.example:27015"] 2)
     (Subscription.mk (some 1) 2 3 4 "gorilla.example:27015") (by decide)⟩

end Gorillabot
